import Mathlib

/-!
Verification of the landmark preprocessing / gesture classification / action
interpretation pipeline (services `preprocess.py`, `recognizer.py`,
`interpret.py`).

Modelling conventions:
* Python floats are modelled by exact rationals (`ℚ`); square roots land in `ℝ`.
* A landmark dict is a record of four optional fields; `d.get(k, 0)` becomes
  `Option.getD _ 0`.  Direct subscription `d['y']` is also read with default 0:
  on every path exercised below the subscripted field is present, so the
  `KeyError` behaviour of Python is never reached.
* A frame (Python dict keyed by point-key strings) is an insertion-ordered
  association list; Python dict truthiness of a landmark value is `truthy`
  (an empty dict is falsy).
* `deque(maxlen=n)` is a list that drops its oldest elements past `n`.
* The per-hand fingertip subsets added by `extract_key_points` are not
  modelled: no claim and no caller in the classifier reads them.
-/

/-- A landmark value: the four coordinate fields of the Python dict, each
possibly absent (the source reads them defensively with `.get(key, 0)`). -/
structure Landmark where
  x : Option ℚ
  y : Option ℚ
  z : Option ℚ
  visibility : Option ℚ
deriving DecidableEq, Repr

/-- A landmark frame: insertion-ordered map from point-key to landmark. -/
abbrev Frame := List (String × Landmark)

/-- Python truthiness of a landmark dict: an empty dict is falsy. -/
def Landmark.truthy (l : Landmark) : Bool :=
  l.x.isSome || l.y.isSome || l.z.isSome || l.visibility.isSome

/-- Truthiness of `Optional[dict]`: `None` and the empty dict are falsy. -/
def truthyO : Option Landmark → Bool
  | none => false
  | some l => l.truthy

/-- The empty landmark dict. -/
def Landmark.emptyDict : Landmark := ⟨none, none, none, none⟩

/-- Unwrap an optional landmark (used only under guards that ensure presence). -/
def getL (p : Option Landmark) : Landmark := p.getD Landmark.emptyDict

/-- Read the `x` field with default 0. -/
def ox (p : Option Landmark) : ℚ := (getL p).x.getD 0

/-- Read the `y` field with default 0. -/
def oy (p : Option Landmark) : ℚ := (getL p).y.getD 0

/-- Read the `z` field with default 0. -/
def oz (p : Option Landmark) : ℚ := (getL p).z.getD 0

/-- `deque(maxlen=m).append`: append and evict the oldest past `m` entries. -/
def pushB (maxlen : ℕ) (q : List α) (v : α) : List α :=
  let q2 := q ++ [v]
  q2.drop (q2.length - maxlen)

/-- `numpy.std`: population standard deviation (exact arithmetic model). -/
noncomputable def npstd (xs : List ℚ) : ℝ :=
  let n : ℚ := xs.length
  let mean : ℚ := xs.sum / n
  let variance : ℚ := (xs.map (fun v => (v - mean) ^ 2)).sum / n
  Real.sqrt (variance : ℝ)

namespace LandmarkPreprocessor

/-- `LandmarkPreprocessor._distance`: 3-D Euclidean distance, fields read with
`.get(k, 0)`. -/
noncomputable def distance (a b : Landmark) : ℝ :=
  Real.sqrt (((a.x.getD 0 - b.x.getD 0) ^ 2 + (a.y.getD 0 - b.y.getD 0) ^ 2 +
      (a.z.getD 0 - b.z.getD 0) ^ 2 : ℚ) : ℝ)

/-- `LandmarkPreprocessor.filter_landmarks`.  `default_threshold` is the
instance field `self.visibility_threshold`; the explicit argument is Python's
`Optional[float]`.  `visibility_threshold or self.visibility_threshold`
falls back on `None` and on the falsy float `0.0`. -/
def filter_landmarks (default_threshold : ℚ) (landmarks : Frame)
    (visibility_threshold : Option ℚ) : Frame :=
  let threshold : ℚ :=
    match visibility_threshold with
    | none => default_threshold
    | some t => if t = 0 then default_threshold else t
  landmarks.filter (fun kv => decide (kv.2.visibility.getD 0 ≥ threshold))

/-- The named key-point view produced by `extract_key_points`. -/
structure KeyPoints where
  nose : Option Landmark
  left_shoulder : Option Landmark
  right_shoulder : Option Landmark
  left_elbow : Option Landmark
  right_elbow : Option Landmark
  left_wrist : Option Landmark
  right_wrist : Option Landmark
  left_hip : Option Landmark
  right_hip : Option Landmark
deriving DecidableEq, Repr

/-- `LandmarkPreprocessor.extract_key_points`: filter at the instance default
threshold, then look up the MediaPipe pose indices by name. -/
def extract_key_points (default_threshold : ℚ) (landmarks : Frame) : KeyPoints :=
  let filtered := filter_landmarks default_threshold landmarks none
  { nose := filtered.lookup "pose_0"
    left_shoulder := filtered.lookup "pose_11"
    right_shoulder := filtered.lookup "pose_12"
    left_elbow := filtered.lookup "pose_13"
    right_elbow := filtered.lookup "pose_14"
    left_wrist := filtered.lookup "pose_15"
    right_wrist := filtered.lookup "pose_16"
    left_hip := filtered.lookup "pose_23"
    right_hip := filtered.lookup "pose_24" }

open Classical in
/-- The `shoulder_width` of `extract_features` before the degeneracy guard:
shoulder distance if both shoulders are truthy, else the `1.0` fallback. -/
noncomputable def featShoulderWidthRaw (kp : KeyPoints) : ℝ :=
  if truthyO kp.left_shoulder = true ∧ truthyO kp.right_shoulder = true then
    distance (getL kp.left_shoulder) (getL kp.right_shoulder)
  else 1

open Classical in
/-- The `shoulder_width` of `extract_features` after the `<= 0` guard. -/
noncomputable def featShoulderWidth (kp : KeyPoints) : ℝ :=
  if featShoulderWidthRaw kp ≤ 0 then 1 else featShoulderWidthRaw kp

open Classical in
/-- The local `normalized_distance` helper of `extract_features`: 0.0 when a
point is missing, else the distance normalized by the shoulder width. -/
noncomputable def normalized_distance (kp : KeyPoints) (a b : Option Landmark) :
    ℝ :=
  if truthyO a = false ∨ truthyO b = false then 0
  else distance (getL a) (getL b) / featShoulderWidth kp

open Classical in
/-- The 9 feature slots of `extract_features`, in source order. -/
noncomputable def featuresList (kp : KeyPoints) : List ℝ :=
  [ normalized_distance kp kp.left_wrist kp.left_shoulder,
    normalized_distance kp kp.right_wrist kp.right_shoulder,
    normalized_distance kp kp.left_wrist kp.nose,
    normalized_distance kp kp.right_wrist kp.nose,
    if truthyO kp.left_wrist = true then ((oy kp.left_wrist - oy kp.nose : ℚ) : ℝ)
    else 0,
    if truthyO kp.right_wrist = true then ((oy kp.right_wrist - oy kp.nose : ℚ) : ℝ)
    else 0,
    normalized_distance kp kp.left_wrist kp.right_wrist,
    if truthyO kp.left_wrist = true ∧ truthyO kp.left_shoulder = true then
      ((ox kp.left_wrist - ox kp.left_shoulder : ℚ) : ℝ)
    else 0,
    if truthyO kp.right_wrist = true ∧ truthyO kp.right_shoulder = true then
      ((ox kp.right_wrist - ox kp.right_shoulder : ℚ) : ℝ)
    else 0 ]

open Classical in
/-- `LandmarkPreprocessor.extract_features`: the 9-slot normalized feature
vector, or the empty vector when the frame filters to nothing or nose or a
shoulder is missing (`not all([nose, left_shoulder, right_shoulder])`). -/
noncomputable def extract_features (default_threshold : ℚ) (landmarks : Frame) :
    List ℝ :=
  let filtered := filter_landmarks default_threshold landmarks none
  if filtered = [] then [] else
  let key_points := extract_key_points default_threshold landmarks
  if ¬ (truthyO key_points.nose = true ∧ truthyO key_points.left_shoulder = true ∧
        truthyO key_points.right_shoulder = true) then []
  else featuresList key_points

/-- The smoothing-buffer state `self._smoothing_buffers`: per point-key list of
buffered landmarks; a key never seen maps to the empty buffer (the lazy
`_get_or_create_buffer` creation is observationally this). -/
def Buffers := String → List Landmark

/-- Fresh preprocessor instance: no smoothing history. -/
def Buffers.empty : Buffers := fun _ => []

/-- `LandmarkPreprocessor.smooth_landmarks`: moving average per point key.
Frame values are landmark dicts in this model, so the
`isinstance(point_data, dict)` pass-through branch is always satisfied;
entries missing `x` or `y` pass through unchanged and leave buffers alone.
Returns the smoothed frame and the updated buffer state. -/
def smooth_landmarks (smoothing_window : ℕ) (bufs : Buffers) :
    Frame → Frame × Buffers
  | [] => ([], bufs)
  | (point_key, point_data) :: rest =>
    if point_data.x.isSome && point_data.y.isSome then
      let buffer := pushB smoothing_window (bufs point_key) point_data
      let bufs' : Buffers := fun k => if k = point_key then buffer else bufs k
      let out : Landmark :=
        if buffer.length > 0 then
          let valid_points := buffer.filter (fun p => p.x.isSome && p.y.isSome)
          if valid_points.length > 0 then
            { x := some ((valid_points.map (fun p => p.x.getD 0)).sum /
                (valid_points.length : ℚ)),
              y := some ((valid_points.map (fun p => p.y.getD 0)).sum /
                (valid_points.length : ℚ)),
              z := some ((valid_points.map (fun p => p.z.getD 0)).sum /
                (valid_points.length : ℚ)),
              visibility := some ((valid_points.map
                (fun p => p.visibility.getD 0)).sum / (valid_points.length : ℚ)) }
          else point_data
        else point_data
      let res := smooth_landmarks smoothing_window bufs' rest
      ((point_key, out) :: res.1, res.2)
    else
      let res := smooth_landmarks smoothing_window bufs rest
      ((point_key, point_data) :: res.1, res.2)

end LandmarkPreprocessor

namespace GestureRecognizer

/-- `GestureRecognizer._distance`: distance between two points as the
classifier computes it — over `x` and `y` only. -/
noncomputable def distance (a b : Landmark) : ℝ :=
  Real.sqrt (((a.x.getD 0 - b.x.getD 0) ^ 2 + (a.y.getD 0 - b.y.getD 0) ^ 2 : ℚ) : ℝ)

/-- `GestureRecognizer._is_visible`: present and `visibility > threshold`. -/
def is_visible (point : Option Landmark) (threshold : ℚ) : Bool :=
  match point with
  | none => false
  | some l => decide (l.visibility.getD 0 > threshold)

/-- The recognizer's mutable session state: the two wrist history deques. -/
structure RecState where
  left : List ℚ
  right : List ℚ
deriving DecidableEq, Repr

open LandmarkPreprocessor in
/-- The visibility gate of `recognize`:
`all(self._is_visible(p) for p in required_points if p)` — falsy (absent)
required points are skipped by the comprehension filter. -/
def visGate (kp : KeyPoints) : Bool :=
  ([kp.nose, kp.left_shoulder, kp.right_shoulder].filter truthyO).all
    (fun p => is_visible p (1/2))

open LandmarkPreprocessor Classical in
/-- The local `shoulder_width` before the degeneracy guard: shoulder distance
if both shoulders are truthy, else the `0.3` fallback. -/
noncomputable def shoulderWidthRaw (kp : KeyPoints) : ℝ :=
  if truthyO kp.left_shoulder = true ∧ truthyO kp.right_shoulder = true then
    distance (getL kp.left_shoulder) (getL kp.right_shoulder)
  else 3/10

open LandmarkPreprocessor Classical in
/-- The local `shoulder_width` after the `<= 0` degeneracy guard. -/
noncomputable def shoulderWidth (kp : KeyPoints) : ℝ :=
  if shoulderWidthRaw kp ≤ 0 then 3/10 else shoulderWidthRaw kp

open LandmarkPreprocessor in
/-- The local `left_up` flag: left wrist visible, nose truthy, wrist above
`nose.y - 0.15`. -/
def leftUp (kp : KeyPoints) : Prop :=
  is_visible kp.left_wrist (1/2) = true ∧ truthyO kp.nose = true ∧
    oy kp.left_wrist < oy kp.nose - 15/100

open LandmarkPreprocessor in
/-- The local `right_up` flag. -/
def rightUp (kp : KeyPoints) : Prop :=
  is_visible kp.right_wrist (1/2) = true ∧ truthyO kp.nose = true ∧
    oy kp.right_wrist < oy kp.nose - 15/100

open LandmarkPreprocessor in
/-- The clap guard: both wrists visible, normalized inter-wrist distance below
`0.12`, depth difference below `0.08`. -/
noncomputable def clapCond (kp : KeyPoints) : Prop :=
  is_visible kp.left_wrist (1/2) = true ∧ is_visible kp.right_wrist (1/2) = true ∧
  distance (getL kp.left_wrist) (getL kp.right_wrist) / shoulderWidth kp < 12/100 ∧
  |oz kp.left_wrist - oz kp.right_wrist| < 8/100

open LandmarkPreprocessor in
/-- The point-left guard (the nested `if`/`elif` block flattened; conjunct
order follows the source). -/
noncomputable def pointLeftCond (kp : KeyPoints) : Prop :=
  is_visible kp.left_wrist (1/2) = true ∧ is_visible kp.left_shoulder (1/2) = true ∧
  ox kp.left_shoulder - ox kp.left_wrist > 10/100 ∧
  ((truthyO kp.left_elbow = true ∧ is_visible kp.left_elbow (1/2) = true ∧
    (distance (getL kp.left_wrist) (getL kp.left_shoulder) >
       distance (getL kp.left_elbow) (getL kp.left_shoulder) * (115/100) ∨
     ox kp.left_shoulder - ox kp.left_wrist > 15/100) ∧ ¬ leftUp kp) ∨
   (¬ (truthyO kp.left_elbow = true ∧ is_visible kp.left_elbow (1/2) = true) ∧
    ox kp.left_shoulder - ox kp.left_wrist > 15/100 ∧ ¬ leftUp kp))

open LandmarkPreprocessor in
/-- The point-right guard (mirror of the left one). -/
noncomputable def pointRightCond (kp : KeyPoints) : Prop :=
  is_visible kp.right_wrist (1/2) = true ∧ is_visible kp.right_shoulder (1/2) = true ∧
  ox kp.right_wrist - ox kp.right_shoulder > 10/100 ∧
  ((truthyO kp.right_elbow = true ∧ is_visible kp.right_elbow (1/2) = true ∧
    (distance (getL kp.right_wrist) (getL kp.right_shoulder) >
       distance (getL kp.right_elbow) (getL kp.right_shoulder) * (115/100) ∨
     ox kp.right_wrist - ox kp.right_shoulder > 15/100) ∧ ¬ rightUp kp) ∨
   (¬ (truthyO kp.right_elbow = true ∧ is_visible kp.right_elbow (1/2) = true) ∧
    ox kp.right_wrist - ox kp.right_shoulder > 15/100 ∧ ¬ rightUp kp))

open LandmarkPreprocessor in
/-- The hands-close guard. -/
noncomputable def handsCloseCond (kp : KeyPoints) : Prop :=
  is_visible kp.left_wrist (1/2) = true ∧ is_visible kp.right_wrist (1/2) = true ∧
  12/100 < distance (getL kp.left_wrist) (getL kp.right_wrist) / shoulderWidth kp ∧
  distance (getL kp.left_wrist) (getL kp.right_wrist) / shoulderWidth kp < 20/100 ∧
  |oz kp.left_wrist - oz kp.right_wrist| < 15/100 ∧
  |oy kp.left_wrist - oy kp.right_wrist| < 10/100 ∧
  ¬ leftUp kp ∧ ¬ rightUp kp

open LandmarkPreprocessor in
open Classical in
/-- `GestureRecognizer.recognize`: the priority-ordered cascade, returning the
label and the updated wrist-history state.  Python bool values are modelled as
`Prop`; the guards are the named conditions above; `history_size` is the
constructor argument. -/
noncomputable def recognize (history_size : ℕ) (st : RecState)
    (landmarks : Frame) : String × RecState :=
  if landmarks = [] then ("none", st) else
  let kp := extract_key_points (1/2) landmarks
  if ¬ (visGate kp = true) then ("none", st) else
  if leftUp kp ∧ rightUp kp then ("both_hands_up", st) else
  if rightUp kp then ("raise_right_hand", st) else
  if leftUp kp then ("raise_left_hand", st) else
  if clapCond kp then ("clap", st) else
  if pointLeftCond kp then ("point_left", st) else
  if pointRightCond kp then ("point_right", st) else
  if handsCloseCond kp then ("hands_close", st) else
  let st1 : RecState :=
    if is_visible kp.right_wrist (1/2) = true then
      { st with right := pushB history_size st.right (ox kp.right_wrist) }
    else st
  if is_visible kp.right_wrist (1/2) = true ∧ st1.right.length = history_size ∧
     rightUp kp ∧ npstd st1.right > 5/100
  then ("wave_right", st1) else
  let st2 : RecState :=
    if is_visible kp.left_wrist (1/2) = true then
      { st1 with left := pushB history_size st1.left (ox kp.left_wrist) }
    else st1
  if is_visible kp.left_wrist (1/2) = true ∧ st2.left.length = history_size ∧
     leftUp kp ∧ npstd st2.left > 5/100
  then ("wave_left", st2) else
  if is_visible kp.right_wrist (1/2) = true ∧ st2.right.length ≥ 10 ∧
     st2.right.length ≥ 10 ∧ truthyO kp.right_wrist = true ∧
     npstd (st2.right.drop (st2.right.length - 10)) > 8/100 ∧ rightUp kp
  then ("circle_right", st2)
  else ("none", st2)

end GestureRecognizer

namespace InterpretationService

/-- A stored gesture→action mapping entry, restricted to the dict fields the
`execute` method reads (`type`, `message`, `url`, `key`, `action`). -/
structure Mapping where
  type : Option String
  message : Option String
  url : Option String
  key : Option String
  action : Option String
deriving DecidableEq, Repr

/-- The structured results `InterpretationService.execute` can return, one
constructor per literal result dict of the source.  The outer
`except Exception` branch (status `"error"`) is unreachable in this model:
none of the modelled operations raises. -/
inductive ActionResult
  | no_action (message : String)
  | no_mapping (message : String)
  | logged (message gesture : String)
  | bad_mapping (error : String)
  | callback_sent (code : ℕ) (gesture : String)
  | callback_error (error : String) (gesture : String)
  | keyboard_not_implemented (key : String) (gesture : String)
  | mouse_not_implemented (action : String) (gesture : String)
  | unknown_type (type gesture : String)
deriving DecidableEq, Repr

/-- The `status` string carried by each result dict in the source. -/
def ActionResult.status : ActionResult → String
  | .no_action _ => "no_action"
  | .no_mapping _ => "no_mapping"
  | .logged _ _ => "logged"
  | .bad_mapping _ => "bad_mapping"
  | .callback_sent _ _ => "callback_sent"
  | .callback_error _ _ => "callback_error"
  | .keyboard_not_implemented _ _ => "keyboard_not_implemented"
  | .mouse_not_implemented _ _ => "mouse_not_implemented"
  | .unknown_type _ _ => "unknown_type"

/-- Outcome of the outbound `client.post(url, json=payload)`: an HTTP status
code, or the text of a raised transport/timeout exception. -/
abbrev HttpOutcome := Except String ℕ

/-- `InterpretationService.execute`.  `mappings` is `self.mappings`; `http`
is the transport oracle, given the url and the caller context (the request
payload is built from the gesture label and the context and only influences
the transport outcome). -/
def execute {Ctx : Type} (mappings : String → Option Mapping)
    (http : String → Ctx → HttpOutcome) (gesture_label : String)
    (context : Ctx) : ActionResult :=
  if gesture_label = "none" then .no_action "Жест не распознан" else
  match mappings gesture_label with
  | none => .no_mapping ("Жест " ++ gesture_label ++ " не имеет назначенного действия")
  | some mapping =>
    let action_type := mapping.type.getD "log"
    if action_type = "log" then
      .logged (mapping.message.getD ("Действие для жеста " ++ gesture_label))
        gesture_label
    else if action_type = "callback" then
      -- `if not url:` — absent and empty url are both falsy.
      match mapping.url with
      | none => .bad_mapping "URL не указан"
      | some url =>
        if url = "" then .bad_mapping "URL не указан"
        else
          match http url context with
          | .ok code => .callback_sent code gesture_label
          | .error e => .callback_error e gesture_label
    else if action_type = "keyboard" then
      .keyboard_not_implemented (mapping.key.getD "") gesture_label
    else if action_type = "mouse" then
      .mouse_not_implemented (mapping.action.getD "") gesture_label
    else .unknown_type action_type gesture_label

end InterpretationService

/-- Modelled from the spec: the 3-D Euclidean distance
`sqrt((ax-bx)^2 + (ay-by)^2 + (az-bz)^2)` that §4.1 declares "the canonical
contract" for feature extraction and classifier geometry. -/
noncomputable def specEuclideanDistance3D (a b : Landmark) : ℝ :=
  Real.sqrt (((a.x.getD 0 - b.x.getD 0) ^ 2 + (a.y.getD 0 - b.y.getD 0) ^ 2 +
      (a.z.getD 0 - b.z.getD 0) ^ 2 : ℚ) : ℝ)

/-- Modelled from the spec: the ActionResult status vocabulary of §3. -/
def specActionResultVocab : List String :=
  ["logged", "callback_sent", "callback_error", "not_implemented",
   "no_mapping", "no_action", "unknown_type", "error"]

/-- A landmark with its `z` coordinate replaced by an explicit 0. -/
def Landmark.withZeroZ (l : Landmark) : Landmark := { l with z := some 0 }

namespace LandmarkPreprocessor

/-- Buffer state after feeding the frame `f` to `smooth_landmarks` of one
preprocessor instance `n` consecutive times. -/
def smoothCalls (smoothing_window : ℕ) (bufs : Buffers) (f : Frame) :
    ℕ → Buffers
  | 0 => bufs
  | n + 1 => (smooth_landmarks smoothing_window (smoothCalls smoothing_window bufs f n) f).2

/-- Smoothed frame produced by the `n`-th consecutive call (`n ≥ 1`). -/
def smoothNthOutput (smoothing_window : ℕ) (bufs : Buffers) (f : Frame)
    (n : ℕ) : Frame :=
  (smooth_landmarks smoothing_window (smoothCalls smoothing_window bufs f (n - 1)) f).1

end LandmarkPreprocessor

/-- Combined mutable state of one recognition session: the preprocessor's
smoothing buffers and the recognizer's wrist-history pair. -/
structure SessionState where
  bufs : LandmarkPreprocessor.Buffers
  recSt : GestureRecognizer.RecState

/-- The state-touching operations of a session: a `smooth_landmarks` call, a
`recognize` call, and `reset_history`.  (`filter_landmarks`,
`extract_key_points` and `extract_features` read no mutable state.) -/
inductive SessionOp
  | smoothOp (f : Frame)
  | recognizeOp (f : Frame)
  | resetOp

/-- Effect of one operation on the session state. -/
noncomputable def applyOp (smoothing_window history_size : ℕ)
    (s : SessionState) : SessionOp → SessionState
  | .smoothOp f =>
    { s with bufs := (LandmarkPreprocessor.smooth_landmarks smoothing_window s.bufs f).2 }
  | .recognizeOp f =>
    { s with recSt := (GestureRecognizer.recognize history_size s.recSt f).2 }
  | .resetOp => { s with recSt := ⟨[], []⟩ }

/-- Effect of a sequence of operations. -/
noncomputable def applyOps (smoothing_window history_size : ℕ)
    (s : SessionState) (ops : List SessionOp) : SessionState :=
  ops.foldl (applyOp smoothing_window history_size) s

/-- A freshly constructed session: empty buffers, empty histories. -/
def initSession : SessionState := ⟨LandmarkPreprocessor.Buffers.empty, ⟨[], []⟩⟩

/-! Concrete test data used by counterexamples and witnesses. -/

/-- A fully visible landmark at the given coordinates. -/
def lm (a b c : ℚ) : Landmark := ⟨some a, some b, some c, some (9/10)⟩

/-- Frame for C2: the nose is below the visibility threshold (filtered out),
both shoulders coincide and are visible, both wrists coincide and are
visible. -/
def frameC2 : Frame :=
  [("pose_0", ⟨some (1/2), some (1/2), some 0, some (3/10)⟩),
   ("pose_11", lm (2/5) (3/5) 0), ("pose_12", lm (2/5) (3/5) 0),
   ("pose_15", lm (1/2) (9/10) 0), ("pose_16", lm (1/2) (9/10) 0)]

/-- Frame for C1: nose and coinciding shoulders visible, the right wrist
visible and raised well above the nose, no left wrist. -/
def frameC1 : Frame :=
  [("pose_0", lm (1/2) (1/2) 0),
   ("pose_11", lm (2/5) (3/5) 0), ("pose_12", lm (2/5) (3/5) 0),
   ("pose_16", lm (1/2) (3/10) 0)]

/-- Recognizer state for C1: a right-wrist history of 14 alternating samples;
appending the current wrist x (1/2) fills it to 15 with standard deviation
well above the wave threshold. -/
def stateC1 : GestureRecognizer.RecState :=
  ⟨[], [0, 1, 0, 1, 0, 1, 0, 1, 0, 1, 0, 1, 0, 1]⟩

/-- Frame for C7: nose and both shoulders visible, no wrists. -/
def frameC7 : Frame :=
  [("pose_0", lm (1/2) (1/2) 0), ("pose_11", lm (2/5) (3/5) 0),
   ("pose_12", lm (3/5) (3/5) 0)]

/-- Mapping store for C4: one keyboard-kind and one mouse-kind entry. -/
def mappingsC4 : String → Option InterpretationService.Mapping :=
  fun g =>
    if g = "kb_gesture" then some ⟨some "keyboard", none, none, some "space", none⟩
    else if g = "mouse_gesture" then some ⟨some "mouse", none, none, none, some "click"⟩
    else none

/-- Mapping store for C6: a callback-kind entry with a URL. -/
def mappingsC6 : String → Option InterpretationService.Mapping :=
  fun g =>
    if g = "wave_right" then
      some ⟨some "callback", none, some "http://example.com/webhook/wave", none, none⟩
    else none

/-- Mapping store for C10: a callback-kind entry without a URL. -/
def mappingsC10 : String → Option InterpretationService.Mapping :=
  fun g =>
    if g = "clap" then some ⟨some "callback", none, none, none, none⟩
    else none

/-! Theorems. -/

/-- Claim C3, counterexample: the classifier's distance ignores `z`, so on two
points differing only in `z` it disagrees with the 3-D Euclidean distance the
claim asserts (0 versus 1). -/
theorem C3_counterexample :
    GestureRecognizer.distance ⟨some 0, some 0, some 0, some 1⟩
        ⟨some 0, some 0, some 1, some 1⟩ ≠
      specEuclideanDistance3D ⟨some 0, some 0, some 0, some 1⟩
        ⟨some 0, some 0, some 1, some 1⟩ := by
  norm_num [GestureRecognizer.distance, specEuclideanDistance3D]

/-- Claim C3, amended: the classifier's geometry distance
(`GestureRecognizer._distance`) is the 2-D Euclidean distance over `x,y` only
— equivalently the 3-D Euclidean distance of the z-flattened points — while
the preprocessor's feature-extraction distance
(`LandmarkPreprocessor._distance`) is the full 3-D Euclidean distance of the
claim. -/
theorem C3_amended_distance_dimensions (a b : Landmark) :
    GestureRecognizer.distance a b =
      LandmarkPreprocessor.distance a.withZeroZ b.withZeroZ ∧
    LandmarkPreprocessor.distance a b = specEuclideanDistance3D a b := by
  constructor
  · simp [GestureRecognizer.distance, LandmarkPreprocessor.distance,
      Landmark.withZeroZ]
  · rfl

/-- Claim C3, witness for the amended theorem at a concrete pair of points. -/
theorem C3_amended_witness :
    GestureRecognizer.distance (lm 1 2 3) (lm 4 5 6) =
      LandmarkPreprocessor.distance (lm 1 2 3).withZeroZ (lm 4 5 6).withZeroZ :=
  (C3_amended_distance_dimensions (lm 1 2 3) (lm 4 5 6)).1

/-- Claim C5: evaluation of `filter_landmarks` at the failing input.  An
explicitly supplied threshold `0.0` is falsy, so the code silently substitutes
the configured default `0.5` and drops an entry of visibility `0.3` that the
claim (and the function's own docstring, which reserves the fallback for
`None`) says must be kept, since `0.3 ≥ 0.0`. -/
theorem C5_filter_zero_threshold_eval :
    LandmarkPreprocessor.filter_landmarks (1/2)
        [("p", ⟨some 0, some 0, some 0, some (3/10)⟩)] (some 0) = [] ∧
    ((3 : ℚ)/10 ≥ 0) := by
  constructor
  · norm_num [LandmarkPreprocessor.filter_landmarks, List.filter]
  · norm_num

/-- Claim C4, counterexample: a keyboard-kind mapping makes `execute` return
status `"keyboard_not_implemented"`, not the `"not_implemented"` the claim
states. -/
theorem C4_counterexample :
    mappingsC4 "kb_gesture" =
      some ⟨some "keyboard", none, none, some "space", none⟩ ∧
    (InterpretationService.execute mappingsC4 (fun _ _ => Except.ok 7)
        "kb_gesture" ()).status ≠ "not_implemented" := by
  constructor
  · rfl
  · decide

/-- Claim C4, amended: for every gesture label other than the `"none"`
sentinel whose stored mapping has kind `"keyboard"` (resp. `"mouse"`),
`execute` deterministically returns the kind-specific stub result with status
`"keyboard_not_implemented"` (resp. `"mouse_not_implemented"`), carrying the
mapped key (resp. action) parameter. -/
theorem C4_amended_not_implemented_statuses (Ctx : Type)
    (mappings : String → Option InterpretationService.Mapping)
    (http : String → Ctx → InterpretationService.HttpOutcome)
    (g : String) (ctx : Ctx) (m : InterpretationService.Mapping)
    (hg : g ≠ "none") (hm : mappings g = some m) :
    (m.type = some "keyboard" →
      InterpretationService.execute mappings http g ctx =
        .keyboard_not_implemented (m.key.getD "") g ∧
      (InterpretationService.execute mappings http g ctx).status =
        "keyboard_not_implemented") ∧
    (m.type = some "mouse" →
      InterpretationService.execute mappings http g ctx =
        .mouse_not_implemented (m.action.getD "") g ∧
      (InterpretationService.execute mappings http g ctx).status =
        "mouse_not_implemented") := by
  constructor
  · intro ht
    simp [InterpretationService.execute, hg, hm, ht,
      InterpretationService.ActionResult.status]
  · intro ht
    simp [InterpretationService.execute, hg, hm, ht,
      InterpretationService.ActionResult.status]

/-- Claim C4, witness: the amended theorem applied to the concrete keyboard
and mouse mappings. -/
theorem C4_amended_witness :
    InterpretationService.execute mappingsC4 (fun _ _ => Except.ok 7)
        "kb_gesture" () =
      .keyboard_not_implemented "space" "kb_gesture" ∧
    InterpretationService.execute mappingsC4 (fun _ _ => Except.ok 7)
        "mouse_gesture" () =
      .mouse_not_implemented "click" "mouse_gesture" := by
  constructor
  · exact ((C4_amended_not_implemented_statuses Unit mappingsC4
      (fun _ _ => Except.ok 7) "kb_gesture" () _ (by decide) rfl).1 rfl).1
  · exact ((C4_amended_not_implemented_statuses Unit mappingsC4
      (fun _ _ => Except.ok 7) "mouse_gesture" () _ (by decide) rfl).2 rfl).1

/-- Claim C6: for every callback mapping with a (non-empty) URL and every
context, `execute` is total on the transport outcome: a successful request
yields `callback_sent` with the status code, a raised transport/timeout
exception is caught and yields `callback_error` with the exception text, and
in all cases the result is one of those two structured statuses — nothing
propagates. -/
theorem C6_callback_never_propagates (Ctx : Type)
    (mappings : String → Option InterpretationService.Mapping)
    (http : String → Ctx → InterpretationService.HttpOutcome)
    (g : String) (ctx : Ctx) (m : InterpretationService.Mapping) (u : String)
    (hg : g ≠ "none") (hm : mappings g = some m)
    (ht : m.type = some "callback") (hu : m.url = some u) (hne : u ≠ "") :
    (∀ code, http u ctx = Except.ok code →
      InterpretationService.execute mappings http g ctx =
        .callback_sent code g) ∧
    (∀ e, http u ctx = Except.error e →
      InterpretationService.execute mappings http g ctx =
        .callback_error e g) ∧
    ((InterpretationService.execute mappings http g ctx).status =
        "callback_sent" ∨
     (InterpretationService.execute mappings http g ctx).status =
        "callback_error") := by
  refine ⟨?_, ?_, ?_⟩
  · intro code hc
    simp [InterpretationService.execute, hg, hm, ht, hu, hne, hc]
  · intro e he
    simp [InterpretationService.execute, hg, hm, ht, hu, hne, he]
  · cases hc : http u ctx with
    | ok code =>
      simp [InterpretationService.execute, hg, hm, ht, hu, hne, hc,
        InterpretationService.ActionResult.status]
    | error e =>
      simp [InterpretationService.execute, hg, hm, ht, hu, hne, hc,
        InterpretationService.ActionResult.status]

/-- Claim C6, witness: the concrete callback mapping with a responding
transport oracle. -/
theorem C6_witness :
    InterpretationService.execute mappingsC6 (fun _ _ => Except.ok 200)
        "wave_right" () =
      .callback_sent 200 "wave_right" :=
  (C6_callback_never_propagates Unit mappingsC6 (fun _ _ => Except.ok 200)
    "wave_right" () _ "http://example.com/webhook/wave" (by decide) rfl rfl rfl
    (by decide)).1 200 rfl

/-- Claim C10: a callback-kind mapping without a URL makes `execute` return
the structured result with status `"bad_mapping"` and an error message — a
status that lies outside the spec's ActionResult vocabulary. -/
theorem C10_bad_mapping_outside_vocab (Ctx : Type)
    (mappings : String → Option InterpretationService.Mapping)
    (http : String → Ctx → InterpretationService.HttpOutcome)
    (g : String) (ctx : Ctx) (m : InterpretationService.Mapping)
    (hg : g ≠ "none") (hm : mappings g = some m)
    (ht : m.type = some "callback") (hu : m.url = none) :
    InterpretationService.execute mappings http g ctx =
      .bad_mapping "URL не указан" ∧
    (InterpretationService.execute mappings http g ctx).status =
      "bad_mapping" ∧
    "bad_mapping" ∉ specActionResultVocab := by
  refine ⟨?_, ?_, by decide⟩ <;>
    simp [InterpretationService.execute, hg, hm, ht, hu,
      InterpretationService.ActionResult.status]

/-- Claim C10, witness: the concrete URL-less callback mapping. -/
theorem C10_witness :
    (InterpretationService.execute mappingsC10 (fun _ _ => Except.ok 0)
        "clap" ()).status = "bad_mapping" ∧
    "bad_mapping" ∉ specActionResultVocab :=
  ⟨(C10_bad_mapping_outside_vocab Unit mappingsC10 (fun _ _ => Except.ok 0)
      "clap" () _ (by decide) rfl rfl rfl).2.1,
   (C10_bad_mapping_outside_vocab Unit mappingsC10 (fun _ _ => Except.ok 0)
      "clap" () _ (by decide) rfl rfl rfl).2.2⟩

namespace GestureRecognizer

/-- A landmark whose visibility beats the 0.5 gate is a non-empty dict. -/
theorem truthy_of_vis {l : Landmark} (h : l.visibility.getD 0 > 1/2) :
    l.truthy = true := by
  cases hv : l.visibility with
  | none => rw [hv] at h; norm_num at h
  | some w => simp [Landmark.truthy, hv]

/-- A present landmark whose visibility beats the 0.5 gate is truthy. -/
theorem truthyO_of_vis {l : Landmark} (h : l.visibility.getD 0 > 1/2) :
    truthyO (some l) = true := truthy_of_vis h

/-- `_is_visible` holds on a present landmark with visibility above 0.5. -/
theorem is_visible_eq_true {l : Landmark} (h : l.visibility.getD 0 > 1/2) :
    is_visible (some l) (1/2) = true := by
  simpa [is_visible] using h

/-- The visibility gate passes when every required point is either falsy
(skipped by the comprehension filter) or visible. -/
theorem visGate_true (n lsho rsho le re lw rw lh rh : Option Landmark)
    (hn : truthyO n = false ∨ is_visible n (1/2) = true)
    (hls : truthyO lsho = false ∨ is_visible lsho (1/2) = true)
    (hrs : truthyO rsho = false ∨ is_visible rsho (1/2) = true) :
    visGate ⟨n, lsho, rsho, le, re, lw, rw, lh, rh⟩ = true := by
  simp only [visGate, List.all_eq_true]
  intro x hx
  obtain ⟨hmem, htr⟩ := List.mem_filter.1 hx
  have hx3 : x = n ∨ x = lsho ∨ x = rsho := by simpa using hmem
  rcases hx3 with rfl | rfl | rfl
  · rcases hn with h | h
    · simp [h] at htr
    · exact h
  · rcases hls with h | h
    · simp [h] at htr
    · exact h
  · rcases hrs with h | h
    · simp [h] at htr
    · exact h

open LandmarkPreprocessor in
/-- Evaluation of `recognize` when the nose is absent from the key-point view
(missing or filtered out), the shoulders coincide and are visible, and both
wrists are visible, coincide and are level: the clap rule fires. -/
theorem recognize_noseless_clap (H : ℕ) (st : RecState) (f : Frame)
    (lsh rsh lw rw : Landmark) (le re lh rh : Option Landmark)
    (hf : f ≠ [])
    (hkp : extract_key_points (1/2) f =
      ⟨none, some lsh, some rsh, le, re, some lw, some rw, lh, rh⟩)
    (hlsv : lsh.visibility.getD 0 > 1/2) (hrsv : rsh.visibility.getD 0 > 1/2)
    (hlwv : lw.visibility.getD 0 > 1/2) (hrwv : rw.visibility.getD 0 > 1/2)
    (hsw : distance lsh rsh ≤ 0)
    (hd : distance lw rw / (3/10 : ℝ) < 12/100)
    (hz : |lw.z.getD 0 - rw.z.getD 0| < 8/100) :
    recognize H st f = ("clap", st) := by
  have hls1 := truthyO_of_vis hlsv
  have hrs1 := truthyO_of_vis hrsv
  have ivlw := is_visible_eq_true hlwv
  have ivrw := is_visible_eq_true hrwv
  have hgate : visGate (⟨none, some lsh, some rsh, le, re, some lw, some rw,
      lh, rh⟩ : KeyPoints) = true :=
    visGate_true _ _ _ _ _ _ _ _ _ (Or.inl rfl)
      (Or.inr (is_visible_eq_true hlsv)) (Or.inr (is_visible_eq_true hrsv))
  have hraw : shoulderWidthRaw (⟨none, some lsh, some rsh, le, re, some lw,
      some rw, lh, rh⟩ : KeyPoints) = distance lsh rsh := by
    rw [shoulderWidthRaw, if_pos ⟨hls1, hrs1⟩]
    rfl
  have hswv : shoulderWidth (⟨none, some lsh, some rsh, le, re, some lw,
      some rw, lh, rh⟩ : KeyPoints) = 3/10 := by
    rw [shoulderWidth, hraw, if_pos hsw]
  have hlu : ¬ leftUp (⟨none, some lsh, some rsh, le, re, some lw, some rw,
      lh, rh⟩ : KeyPoints) := by
    simp [leftUp, truthyO]
  have hru : ¬ rightUp (⟨none, some lsh, some rsh, le, re, some lw, some rw,
      lh, rh⟩ : KeyPoints) := by
    simp [rightUp, truthyO]
  have hclap : clapCond (⟨none, some lsh, some rsh, le, re, some lw, some rw,
      lh, rh⟩ : KeyPoints) := by
    refine ⟨ivlw, ivrw, ?_, ?_⟩
    · rw [hswv]
      exact hd
    · simpa [oz, getL] using hz
  simp only [recognize]
  rw [hkp]
  rw [if_neg hf, if_neg (not_not_intro hgate), if_neg (fun h => hlu h.1),
    if_neg hru, if_neg hlu, if_pos hclap]

open LandmarkPreprocessor in
/-- Evaluation of `recognize` when the gate passes, the right-raise flag holds
and the left-raise flag fails: the single-hand raise rule fires. -/
theorem recognize_raise_right_eval (H : ℕ) (st : RecState) (f : Frame)
    (n lsh rsh : Landmark) (le re lwo rwo lh rh : Option Landmark)
    (hf : f ≠ [])
    (hkp : extract_key_points (1/2) f =
      ⟨some n, some lsh, some rsh, le, re, lwo, rwo, lh, rh⟩)
    (hnv : n.visibility.getD 0 > 1/2) (hlsv : lsh.visibility.getD 0 > 1/2)
    (hrsv : rsh.visibility.getD 0 > 1/2)
    (hru : rightUp ⟨some n, some lsh, some rsh, le, re, lwo, rwo, lh, rh⟩)
    (hnl : ¬ leftUp ⟨some n, some lsh, some rsh, le, re, lwo, rwo, lh, rh⟩) :
    recognize H st f = ("raise_right_hand", st) := by
  have hgate := visGate_true (some n) (some lsh) (some rsh) le re lwo rwo lh rh
    (Or.inr (is_visible_eq_true hnv)) (Or.inr (is_visible_eq_true hlsv))
    (Or.inr (is_visible_eq_true hrsv))
  simp only [recognize]
  rw [hkp]
  rw [if_neg hf, if_neg (not_not_intro hgate), if_neg (fun h => hnl h.1),
    if_pos hru]

open LandmarkPreprocessor in
/-- Evaluation of `recognize` when the gate passes, the left-raise flag holds
and the right-raise flag fails. -/
theorem recognize_raise_left_eval (H : ℕ) (st : RecState) (f : Frame)
    (n lsh rsh : Landmark) (le re lwo rwo lh rh : Option Landmark)
    (hf : f ≠ [])
    (hkp : extract_key_points (1/2) f =
      ⟨some n, some lsh, some rsh, le, re, lwo, rwo, lh, rh⟩)
    (hnv : n.visibility.getD 0 > 1/2) (hlsv : lsh.visibility.getD 0 > 1/2)
    (hrsv : rsh.visibility.getD 0 > 1/2)
    (hlu : leftUp ⟨some n, some lsh, some rsh, le, re, lwo, rwo, lh, rh⟩)
    (hnr : ¬ rightUp ⟨some n, some lsh, some rsh, le, re, lwo, rwo, lh, rh⟩) :
    recognize H st f = ("raise_left_hand", st) := by
  have hgate := visGate_true (some n) (some lsh) (some rsh) le re lwo rwo lh rh
    (Or.inr (is_visible_eq_true hnv)) (Or.inr (is_visible_eq_true hlsv))
    (Or.inr (is_visible_eq_true hrsv))
  simp only [recognize]
  rw [hkp]
  rw [if_neg hf, if_neg (not_not_intro hgate), if_neg (fun h => hnr h.2),
    if_neg hnr, if_pos hlu]

open LandmarkPreprocessor in
/-- Evaluation of `recognize` when the gate passes and both raise flags hold. -/
theorem recognize_both_up_eval (H : ℕ) (st : RecState) (f : Frame)
    (n lsh rsh : Landmark) (le re lwo rwo lh rh : Option Landmark)
    (hf : f ≠ [])
    (hkp : extract_key_points (1/2) f =
      ⟨some n, some lsh, some rsh, le, re, lwo, rwo, lh, rh⟩)
    (hnv : n.visibility.getD 0 > 1/2) (hlsv : lsh.visibility.getD 0 > 1/2)
    (hrsv : rsh.visibility.getD 0 > 1/2)
    (hlu : leftUp ⟨some n, some lsh, some rsh, le, re, lwo, rwo, lh, rh⟩)
    (hru : rightUp ⟨some n, some lsh, some rsh, le, re, lwo, rwo, lh, rh⟩) :
    recognize H st f = ("both_hands_up", st) := by
  have hgate := visGate_true (some n) (some lsh) (some rsh) le re lwo rwo lh rh
    (Or.inr (is_visible_eq_true hnv)) (Or.inr (is_visible_eq_true hlsv))
    (Or.inr (is_visible_eq_true hrsv))
  simp only [recognize]
  rw [hkp]
  rw [if_neg hf, if_neg (not_not_intro hgate), if_pos ⟨hlu, hru⟩]

end GestureRecognizer

/-- Key-point view of the C2 frame: the nose entry is filtered out. -/
theorem keypointsC2 : LandmarkPreprocessor.extract_key_points (1/2) frameC2 =
    ⟨none, some (lm (2/5) (3/5) 0), some (lm (2/5) (3/5) 0), none, none,
     some (lm (1/2) (9/10) 0), some (lm (1/2) (9/10) 0), none, none⟩ := by
  simp only [LandmarkPreprocessor.extract_key_points,
    LandmarkPreprocessor.filter_landmarks, frameC2, lm]
  norm_num [List.filter]
  simp [List.lookup]

/-- Claim C2: evaluation at the failing input.  The nose entry of `frameC2`
has visibility 0.3 — below the 0.5 gate, so it is filtered out of the
key-point view — yet `recognize` returns `"clap"`, not the `"none"` the claim
requires: the comprehension filter `if p` in the visibility gate skips absent
required points instead of failing on them. -/
theorem C2_missing_nose_not_none :
    (frameC2.lookup "pose_0").map (fun l => l.visibility.getD 0) =
      some (3/10) ∧
    (LandmarkPreprocessor.extract_key_points (1/2) frameC2).nose = none ∧
    GestureRecognizer.recognize 15 ⟨[], []⟩ frameC2 = ("clap", ⟨[], []⟩) := by
  refine ⟨by simp [frameC2, List.lookup], by rw [keypointsC2], ?_⟩
  refine GestureRecognizer.recognize_noseless_clap 15 ⟨[], []⟩ frameC2
    (lm (2/5) (3/5) 0) (lm (2/5) (3/5) 0) (lm (1/2) (9/10) 0)
    (lm (1/2) (9/10) 0) none none none none (by simp [frameC2]) keypointsC2
    ?_ ?_ ?_ ?_ ?_ ?_ ?_
  · norm_num [lm]
  · norm_num [lm]
  · norm_num [lm]
  · norm_num [lm]
  · norm_num [GestureRecognizer.distance, lm, Real.sqrt_zero]
  · norm_num [GestureRecognizer.distance, lm, Real.sqrt_zero]
  · norm_num [lm]

/-- Key-point view of the C1 frame. -/
theorem keypointsC1 : LandmarkPreprocessor.extract_key_points (1/2) frameC1 =
    ⟨some (lm (1/2) (1/2) 0), some (lm (2/5) (3/5) 0), some (lm (2/5) (3/5) 0),
     none, none, none, some (lm (1/2) (3/10) 0), none, none⟩ := by
  simp only [LandmarkPreprocessor.extract_key_points,
    LandmarkPreprocessor.filter_landmarks, frameC1, lm]
  norm_num [List.filter]
  simp [List.lookup]

/-- `recognize` on the C1 frame returns the raise label and leaves the wrist
history untouched: the raised-hand rule precedes the wave rule. -/
theorem recognizeC1_eval :
    GestureRecognizer.recognize 15 stateC1 frameC1 =
      ("raise_right_hand", stateC1) := by
  refine GestureRecognizer.recognize_raise_right_eval 15 stateC1 frameC1
    (lm (1/2) (1/2) 0) (lm (2/5) (3/5) 0) (lm (2/5) (3/5) 0)
    none none none (some (lm (1/2) (3/10) 0)) none none
    (by simp [frameC1]) keypointsC1 ?_ ?_ ?_ ?_ ?_
  · norm_num [lm]
  · norm_num [lm]
  · norm_num [lm]
  · refine ⟨GestureRecognizer.is_visible_eq_true (by norm_num [lm]),
      GestureRecognizer.truthyO_of_vis (by norm_num [lm]), ?_⟩
    show oy (some (lm (1/2) (3/10) 0)) < oy (some (lm (1/2) (1/2) 0)) - 15/100
    norm_num [oy, getL, lm]
  · simp [GestureRecognizer.leftUp, GestureRecognizer.is_visible]

/-- The standard deviation of the filled C1 wrist buffer exceeds the wave
threshold. -/
theorem stdC1lit : npstd (pushB 15 stateC1.right (1/2)) > 5/100 := by
  have hlist : pushB 15 stateC1.right (1/2) =
      [0, 1, 0, 1, 0, 1, 0, 1, 0, 1, 0, 1, 0, 1, 1/2] := by
    simp [pushB, stateC1]
  rw [hlist]
  have hvar : npstd [0, 1, 0, 1, 0, 1, 0, 1, 0, 1, 0, 1, 0, 1, 1/2] =
      Real.sqrt (((7:ℚ)/30 : ℚ) : ℝ) := by
    norm_num [npstd]
  rw [hvar, show (((7:ℚ)/30 : ℚ) : ℝ) = 7/30 by norm_num, gt_iff_lt,
    Real.lt_sqrt (by norm_num)]
  norm_num

/-- Claim C1, counterexample: a frame and history state satisfying every
hypothesis of the claim — right wrist visible, wrist-history full after
appending the current wrist x, raise condition satisfied, standard deviation
above 0.05 — on which `recognize` does not return `"wave_right"` (it returns
`"raise_right_hand"`: the earlier raise rule fires first). -/
theorem C1_counterexample :
    GestureRecognizer.is_visible
      (LandmarkPreprocessor.extract_key_points (1/2) frameC1).right_wrist
      (1/2) = true ∧
    (pushB 15 stateC1.right
      (ox (LandmarkPreprocessor.extract_key_points (1/2) frameC1).right_wrist)).length
      = 15 ∧
    oy (LandmarkPreprocessor.extract_key_points (1/2) frameC1).right_wrist <
      oy (LandmarkPreprocessor.extract_key_points (1/2) frameC1).nose - 15/100 ∧
    npstd (pushB 15 stateC1.right
      (ox (LandmarkPreprocessor.extract_key_points (1/2) frameC1).right_wrist)) >
      5/100 ∧
    (GestureRecognizer.recognize 15 stateC1 frameC1).1 ≠ "wave_right" := by
  rw [keypointsC1]
  refine ⟨GestureRecognizer.is_visible_eq_true (by norm_num [lm]), by decide,
    by norm_num [oy, getL, lm], stdC1lit, ?_⟩
  rw [recognizeC1_eval]
  decide

open LandmarkPreprocessor GestureRecognizer in
/-- Claim C1, amended: under the claim's hypotheses (visible nose and
shoulders, the wrist visible and satisfying the raise condition, that side's
motion-history buffer full after appending the current wrist x, standard
deviation of the buffered values above 0.05), `recognize` returns the raise
label — `"raise_right_hand"`, or `"both_hands_up"` when the other hand is
also raised (symmetrically `"raise_left_hand"` on the left) — never
`"wave_left"`/`"wave_right"`: the raise rules precede the wave rule in the
decision list and the wave rule requires the raised state, so the wave
branches are unreachable. -/
theorem C1_amended_raise_shadows_wave (H : ℕ) (st : RecState) (f : Frame)
    (n lsh rsh : Landmark) (le re lwo rwo lh rh : Option Landmark)
    (hkp : extract_key_points (1/2) f =
      ⟨some n, some lsh, some rsh, le, re, lwo, rwo, lh, rh⟩)
    (hnv : n.visibility.getD 0 > 1/2) (hlsv : lsh.visibility.getD 0 > 1/2)
    (hrsv : rsh.visibility.getD 0 > 1/2) :
    (∀ w, rwo = some w → w.visibility.getD 0 > 1/2 →
      w.y.getD 0 < n.y.getD 0 - 15/100 →
      (pushB H st.right (w.x.getD 0)).length = H →
      npstd (pushB H st.right (w.x.getD 0)) > 5/100 →
      (recognize H st f).1 = "raise_right_hand" ∨
      (recognize H st f).1 = "both_hands_up") ∧
    (∀ w, lwo = some w → w.visibility.getD 0 > 1/2 →
      w.y.getD 0 < n.y.getD 0 - 15/100 →
      (pushB H st.left (w.x.getD 0)).length = H →
      npstd (pushB H st.left (w.x.getD 0)) > 5/100 →
      (recognize H st f).1 = "raise_left_hand" ∨
      (recognize H st f).1 = "both_hands_up") := by
  have hf : f ≠ [] := by
    rintro rfl
    simp [LandmarkPreprocessor.extract_key_points,
      LandmarkPreprocessor.filter_landmarks] at hkp
  constructor
  · intro w hw hwv hwy _ _
    subst hw
    have hru : rightUp ⟨some n, some lsh, some rsh, le, re, lwo, some w, lh, rh⟩ :=
      ⟨is_visible_eq_true hwv, truthyO_of_vis hnv, hwy⟩
    by_cases hl : leftUp ⟨some n, some lsh, some rsh, le, re, lwo, some w, lh, rh⟩
    · exact Or.inr (by
        rw [recognize_both_up_eval H st f n lsh rsh le re lwo (some w) lh rh
          hf hkp hnv hlsv hrsv hl hru])
    · exact Or.inl (by
        rw [recognize_raise_right_eval H st f n lsh rsh le re lwo (some w) lh rh
          hf hkp hnv hlsv hrsv hru hl])
  · intro w hw hwv hwy _ _
    subst hw
    have hlu : leftUp ⟨some n, some lsh, some rsh, le, re, some w, rwo, lh, rh⟩ :=
      ⟨is_visible_eq_true hwv, truthyO_of_vis hnv, hwy⟩
    by_cases hr : rightUp ⟨some n, some lsh, some rsh, le, re, some w, rwo, lh, rh⟩
    · exact Or.inr (by
        rw [recognize_both_up_eval H st f n lsh rsh le re (some w) rwo lh rh
          hf hkp hnv hlsv hrsv hlu hr])
    · exact Or.inl (by
        rw [recognize_raise_left_eval H st f n lsh rsh le re (some w) rwo lh rh
          hf hkp hnv hlsv hrsv hlu hr])

/-- Claim C1, witness for the amended theorem at the concrete frame and
history state of the counterexample. -/
theorem C1_amended_witness :
    (GestureRecognizer.recognize 15 stateC1 frameC1).1 = "raise_right_hand" ∨
    (GestureRecognizer.recognize 15 stateC1 frameC1).1 = "both_hands_up" :=
  (C1_amended_raise_shadows_wave 15 stateC1 frameC1 (lm (1/2) (1/2) 0)
      (lm (2/5) (3/5) 0) (lm (2/5) (3/5) 0) none none none
      (some (lm (1/2) (3/10) 0)) none none keypointsC1 (by norm_num [lm])
      (by norm_num [lm]) (by norm_num [lm])).1
    (lm (1/2) (3/10) 0) rfl (by norm_num [lm]) (by norm_num [lm]) (by decide)
    stdC1lit

namespace LandmarkPreprocessor

/-- A successful association-list lookup exhibits a member. -/
theorem lookup_mem {l : List (String × Landmark)} {k : String} {v : Landmark}
    (h : l.lookup k = some v) : (k, v) ∈ l := by
  induction l with
  | nil => simp [List.lookup] at h
  | cons a t ih =>
    obtain ⟨k2, v2⟩ := a
    by_cases hk : k == k2
    · simp only [List.lookup, hk] at h
      obtain rfl : v2 = v := by simpa using h
      obtain rfl : k = k2 := eq_of_beq hk
      exact List.mem_cons_self _ _
    · rw [List.lookup, Bool.not_eq_true] at *
      rw [hk] at h
      exact List.mem_cons_of_mem _ (ih h)

/-- Entries found in a filtered frame passed the visibility threshold. -/
theorem filter_vis_of_lookup {f : Frame} {t : ℚ} {k : String} {v : Landmark}
    (h : (filter_landmarks t f none).lookup k = some v) :
    v.visibility.getD 0 ≥ t := by
  have hm := lookup_mem h
  rw [filter_landmarks] at hm
  exact of_decide_eq_true (List.mem_filter.1 hm).2

/-- A landmark that survived the 0.5 filter is truthy. -/
theorem truthyO_of_vis_ge {l : Landmark} (h : l.visibility.getD 0 ≥ 1/2) :
    truthyO (some l) = true := by
  cases hv : l.visibility with
  | none => rw [hv] at h; norm_num at h
  | some w => simp [truthyO, Landmark.truthy, hv]

/-- Claim C7: whenever nose and both shoulders survive filtering at the
default visibility threshold, `extract_features` returns exactly 9 scalars in
the fixed order, with 0.0 in every slot fed by a missing wrist; whenever the
nose or a shoulder does not survive filtering, it returns the empty vector. -/
theorem C7_extract_features_shape (f : Frame) :
    (∀ n lsh rsh : Landmark,
      (filter_landmarks (1/2) f none).lookup "pose_0" = some n →
      (filter_landmarks (1/2) f none).lookup "pose_11" = some lsh →
      (filter_landmarks (1/2) f none).lookup "pose_12" = some rsh →
      (extract_features (1/2) f).length = 9 ∧
      ((extract_key_points (1/2) f).left_wrist = none →
        (extract_features (1/2) f).get? 0 = some 0 ∧
        (extract_features (1/2) f).get? 2 = some 0 ∧
        (extract_features (1/2) f).get? 4 = some 0 ∧
        (extract_features (1/2) f).get? 6 = some 0 ∧
        (extract_features (1/2) f).get? 7 = some 0) ∧
      ((extract_key_points (1/2) f).right_wrist = none →
        (extract_features (1/2) f).get? 1 = some 0 ∧
        (extract_features (1/2) f).get? 3 = some 0 ∧
        (extract_features (1/2) f).get? 5 = some 0 ∧
        (extract_features (1/2) f).get? 6 = some 0 ∧
        (extract_features (1/2) f).get? 8 = some 0)) ∧
    (((filter_landmarks (1/2) f none).lookup "pose_0" = none ∨
      (filter_landmarks (1/2) f none).lookup "pose_11" = none ∨
      (filter_landmarks (1/2) f none).lookup "pose_12" = none) →
      extract_features (1/2) f = []) := by
  constructor
  · intro n lsh rsh h0 h11 h12
    have hne : filter_landmarks (1/2) f none ≠ [] := by
      intro h
      rw [h] at h0
      simp [List.lookup] at h0
    have t0 : truthyO (extract_key_points (1/2) f).nose = true := by
      rw [show (extract_key_points (1/2) f).nose =
        (filter_landmarks (1/2) f none).lookup "pose_0" from rfl, h0]
      exact truthyO_of_vis_ge (filter_vis_of_lookup h0)
    have t11 : truthyO (extract_key_points (1/2) f).left_shoulder = true := by
      rw [show (extract_key_points (1/2) f).left_shoulder =
        (filter_landmarks (1/2) f none).lookup "pose_11" from rfl, h11]
      exact truthyO_of_vis_ge (filter_vis_of_lookup h11)
    have t12 : truthyO (extract_key_points (1/2) f).right_shoulder = true := by
      rw [show (extract_key_points (1/2) f).right_shoulder =
        (filter_landmarks (1/2) f none).lookup "pose_12" from rfl, h12]
      exact truthyO_of_vis_ge (filter_vis_of_lookup h12)
    have hmain : extract_features (1/2) f =
        featuresList (extract_key_points (1/2) f) := by
      simp only [extract_features]
      rw [if_neg hne, if_neg (not_not_intro ⟨t0, t11, t12⟩)]
    refine ⟨by rw [hmain]; rfl, ?_, ?_⟩
    · intro hlw
      rw [hmain, featuresList, hlw]
      simp [normalized_distance, truthyO, List.get?]
    · intro hrw
      rw [hmain, featuresList, hrw]
      simp [normalized_distance, truthyO, List.get?]
  · intro hmiss
    by_cases hne : filter_landmarks (1/2) f none = []
    · simp only [extract_features]
      rw [if_pos hne]
    · simp only [extract_features]
      rw [if_neg hne, if_pos ?_]
      rcases hmiss with h | h | h
      · intro hc
        have hcn : truthyO (extract_key_points (1/2) f).nose = true := hc.1
        rw [show (extract_key_points (1/2) f).nose =
          (filter_landmarks (1/2) f none).lookup "pose_0" from rfl, h] at hcn
        simp [truthyO] at hcn
      · intro hc
        have hcn : truthyO (extract_key_points (1/2) f).left_shoulder = true :=
          hc.2.1
        rw [show (extract_key_points (1/2) f).left_shoulder =
          (filter_landmarks (1/2) f none).lookup "pose_11" from rfl, h] at hcn
        simp [truthyO] at hcn
      · intro hc
        have hcn : truthyO (extract_key_points (1/2) f).right_shoulder = true :=
          hc.2.2
        rw [show (extract_key_points (1/2) f).right_shoulder =
          (filter_landmarks (1/2) f none).lookup "pose_12" from rfl, h] at hcn
        simp [truthyO] at hcn

/-- Claim C7, witness: the concrete wristless frame yields a 9-slot vector
with 0.0 in the wrist slots. -/
theorem C7_witness :
    (extract_features (1/2) frameC7).length = 9 ∧
    (extract_features (1/2) frameC7).get? 0 = some 0 ∧
    (extract_features (1/2) frameC7).get? 6 = some 0 := by
  have hl0 : (filter_landmarks (1/2) frameC7 none).lookup "pose_0" =
      some (lm (1/2) (1/2) 0) := by
    simp only [filter_landmarks, frameC7, lm]
    norm_num [List.filter]
    try simp [List.lookup]
  have hl11 : (filter_landmarks (1/2) frameC7 none).lookup "pose_11" =
      some (lm (2/5) (3/5) 0) := by
    simp only [filter_landmarks, frameC7, lm]
    norm_num [List.filter]
    try simp [List.lookup]
  have hl12 : (filter_landmarks (1/2) frameC7 none).lookup "pose_12" =
      some (lm (3/5) (3/5) 0) := by
    simp only [filter_landmarks, frameC7, lm]
    norm_num [List.filter]
    try simp [List.lookup]
  have hlw : (extract_key_points (1/2) frameC7).left_wrist = none := by
    simp only [extract_key_points, filter_landmarks, frameC7, lm]
    norm_num [List.filter]
    try simp [List.lookup]
  have happ := (C7_extract_features_shape frameC7).1 (lm (1/2) (1/2) 0)
    (lm (2/5) (3/5) 0) (lm (3/5) (3/5) 0) hl0 hl11 hl12
  exact ⟨happ.1, (happ.2.1 hlw).1, (happ.2.1 hlw).2.2.2.1⟩

end LandmarkPreprocessor

namespace LandmarkPreprocessor

/-- Keys not occurring in the frame keep their smoothing buffer. -/
theorem smooth_bufs_untouched (W : ℕ) (bufs : Buffers) (f : Frame) (k : String)
    (hk : k ∉ f.map Prod.fst) :
    (smooth_landmarks W bufs f).2 k = bufs k := by
  induction f generalizing bufs with
  | nil => rfl
  | cons a t ih =>
    obtain ⟨k1, v1⟩ := a
    simp only [List.map_cons, List.mem_cons, not_or] at hk
    obtain ⟨hk1, hkt⟩ := hk
    by_cases hv1 : (v1.x.isSome && v1.y.isSome) = true
    · simp only [smooth_landmarks, if_pos hv1]
      rw [ih _ hkt]
      simp [hk1]
    · simp only [smooth_landmarks, if_neg hv1]
      exact ih _ hkt

/-- One `smooth_landmarks` call pushes the frame's value at `k` (when
landmark-shaped) onto that key's buffer. -/
theorem smooth_bufs_at_key (W : ℕ) (bufs : Buffers) (f : Frame) (k : String)
    (v : Landmark) (hnodup : (f.map Prod.fst).Nodup) (hmem : (k, v) ∈ f)
    (hx : v.x.isSome) (hy : v.y.isSome) :
    (smooth_landmarks W bufs f).2 k = pushB W (bufs k) v := by
  induction f generalizing bufs with
  | nil => simp at hmem
  | cons a t ih =>
    obtain ⟨k1, v1⟩ := a
    simp only [List.map_cons, List.nodup_cons] at hnodup
    rcases List.mem_cons.1 hmem with heq | hmem_t
    · simp only [Prod.mk.injEq] at heq
      obtain ⟨rfl, rfl⟩ := heq
      simp only [smooth_landmarks,
        if_pos (by simp [hx, hy] : (v.x.isSome && v.y.isSome) = true)]
      rw [smooth_bufs_untouched W _ t k hnodup.1]
      simp
    · have hk1 : k1 ≠ k := by
        intro h
        exact hnodup.1 (h ▸ List.mem_map_of_mem Prod.fst hmem_t)
      by_cases hv1 : (v1.x.isSome && v1.y.isSome) = true
      · simp only [smooth_landmarks, if_pos hv1]
        rw [ih _ hnodup.2 hmem_t]
        simp [Ne.symm hk1]
      · simp only [smooth_landmarks, if_neg hv1]
        exact ih _ hnodup.2 hmem_t

/-- Deque-push composes with keep-last-`W`. -/
theorem push_drop_comp {α : Type} (W : ℕ) (s : List α) (v : α) :
    pushB W (s.drop (s.length - W)) v = (s ++ [v]).drop (s.length + 1 - W) := by
  rcases lt_or_le s.length W with hws | hws
  · rw [Nat.sub_eq_zero_of_le (le_of_lt hws), List.drop_zero]
    simp only [pushB]
    congr 1
    simp
  · rcases Nat.eq_zero_or_pos W with rfl | hW
    · simp [pushB]
    · have hlen : (s.drop (s.length - W)).length = W := by
        rw [List.length_drop]
        omega
      have h2 : ((s.drop (s.length - W)) ++ [v]).length - W = 1 := by
        rw [List.length_append, hlen]
        simp
      simp only [pushB]
      rw [h2, List.drop_append_of_le_length (by omega :
            1 ≤ (s.drop (s.length - W)).length),
        List.drop_drop,
        List.drop_append_of_le_length (by omega :
            s.length + 1 - W ≤ s.length)]
      congr 2
      omega

/-- After at least `W` pushes of the same value, only copies of it remain. -/
theorem drop_push_replicate {α : Type} (W n : ℕ) (q : List α) (v : α)
    (hnW : W ≤ n) :
    (q ++ List.replicate n v).drop (q.length + n - W) = List.replicate W v := by
  have h1 : q.length + n - W = q.length + (n - W) := by omega
  rw [h1, List.drop_append, List.drop_replicate]
  congr 1
  omega

/-- Closed form of the buffer at `k` after the `n`-th consecutive call. -/
theorem pushB_smoothCalls (W : ℕ) (bufs : Buffers) (f : Frame) (k : String)
    (v : Landmark) (hnodup : (f.map Prod.fst).Nodup) (hmem : (k, v) ∈ f)
    (hx : v.x.isSome) (hy : v.y.isSome) :
    ∀ n, 1 ≤ n →
      pushB W (smoothCalls W bufs f (n - 1) k) v =
        (bufs k ++ List.replicate n v).drop ((bufs k).length + n - W) := by
  intro n
  induction n with
  | zero => omega
  | succ m ih =>
    intro _
    rcases Nat.eq_zero_or_pos m with rfl | hm
    · simp only [smoothCalls, pushB, List.replicate_one]
      simp
    · have hstep : smoothCalls W bufs f m k =
          (bufs k ++ List.replicate m v).drop ((bufs k).length + m - W) := by
        have hm1 : m = m - 1 + 1 := by omega
        calc smoothCalls W bufs f m k
            = (smooth_landmarks W (smoothCalls W bufs f (m - 1)) f).2 k := by
              rw [show smoothCalls W bufs f m =
                (smooth_landmarks W (smoothCalls W bufs f (m - 1)) f).2 from by
                  rw [hm1]; rfl]
          _ = pushB W (smoothCalls W bufs f (m - 1) k) v :=
              smooth_bufs_at_key W _ f k v hnodup hmem hx hy
          _ = (bufs k ++ List.replicate m v).drop ((bufs k).length + m - W) :=
              ih hm
      have hsm : Nat.succ m - 1 = m := by omega
      rw [hsm, hstep]
      have hlen : (bufs k ++ List.replicate m v).length = (bufs k).length + m := by
        simp
      rw [show (bufs k).length + m - W =
        (bufs k ++ List.replicate m v).length - W from by rw [hlen],
        push_drop_comp, hlen]
      rw [List.append_assoc, show List.replicate m v ++ [v] =
        List.replicate (m + 1) v from (List.replicate_succ' m v).symm]
      congr 1

/-- Averaging `W > 0` copies of a value returns it (exact arithmetic). -/
theorem avg_replicate (W : ℕ) (hW : 0 < W) (a : ℚ) :
    (List.replicate W a).sum / ((List.replicate W a).length : ℚ) = a := by
  rw [List.sum_replicate, List.length_replicate, nsmul_eq_mul]
  field_simp

/-- When the buffer at `k` after the push holds only copies of the full
landmark `v`, the smoothed output at `k` is exactly `v`. -/
theorem smooth_out_const (W : ℕ) (bufs : Buffers) (f : Frame) (k : String)
    (v : Landmark) (hnodup : (f.map Prod.fst).Nodup) (hmem : (k, v) ∈ f)
    (hx : v.x.isSome) (hy : v.y.isSome) (hz : v.z.isSome)
    (hvis : v.visibility.isSome)
    (hbuf : pushB W (bufs k) v = List.replicate W v) :
    (smooth_landmarks W bufs f).1.lookup k = some v := by
  induction f generalizing bufs with
  | nil => simp at hmem
  | cons a t ih =>
    obtain ⟨k1, v1⟩ := a
    simp only [List.map_cons, List.nodup_cons] at hnodup
    rcases List.mem_cons.1 hmem with heq | hmem_t
    · simp only [Prod.mk.injEq] at heq
      obtain ⟨rfl, rfl⟩ := heq
      simp only [smooth_landmarks,
        if_pos (by simp [hx, hy] : (v.x.isSome && v.y.isSome) = true)]
      rw [hbuf]
      simp only [List.lookup, beq_self_eq_true]
      rcases Nat.eq_zero_or_pos W with rfl | hW
      · simp
      · have hfilt : (List.replicate W v).filter
            (fun p => p.x.isSome && p.y.isSome) = List.replicate W v := by
          rw [List.filter_replicate]
          simp [hx, hy]
        rw [if_pos (by simp [hW] : (List.replicate W v).length > 0), hfilt,
          if_pos (by simp [hW] : (List.replicate W v).length > 0)]
        obtain ⟨xa, hxa⟩ := Option.isSome_iff_exists.1 hx
        obtain ⟨ya, hya⟩ := Option.isSome_iff_exists.1 hy
        obtain ⟨za, hza⟩ := Option.isSome_iff_exists.1 hz
        obtain ⟨va, hva⟩ := Option.isSome_iff_exists.1 hvis
        simp only [List.map_replicate, List.length_replicate,
          List.sum_replicate, nsmul_eq_mul, hxa, hya, hza, hva,
          Option.getD_some]
        have hWne : (W : ℚ) ≠ 0 := Nat.cast_ne_zero.mpr (Nat.pos_iff_ne_zero.mp hW)
        rw [mul_div_cancel_left₀ xa hWne, mul_div_cancel_left₀ ya hWne,
          mul_div_cancel_left₀ za hWne, mul_div_cancel_left₀ va hWne]
        rw [← hxa, ← hya, ← hza, ← hva]
    · have hk1 : k1 ≠ k := by
        intro h
        exact hnodup.1 (h ▸ List.mem_map_of_mem Prod.fst hmem_t)
      have hbeq : (k == k1) = false := by
        simp [Ne.symm hk1]
      by_cases hv1 : (v1.x.isSome && v1.y.isSome) = true
      · simp only [smooth_landmarks, if_pos hv1, List.lookup, hbeq]
        apply ih _ hnodup.2 hmem_t
        simpa [Ne.symm hk1] using hbuf
      · simp only [smooth_landmarks, if_neg hv1, List.lookup, hbeq]
        exact ih _ hnodup.2 hmem_t hbuf

/-- Claim C8: feeding a frame that carries the constant full landmark `v` at
key `k` to `smooth_landmarks` of one preprocessor instance `n ≥ W` times
(`n ≥ 1`) yields output `v` at `k` on the `n`-th call — convergence to the
constant once the window is filled, under exact arithmetic, from any starting
buffer state. -/
theorem C8_smooth_constant_converges (W : ℕ) (bufs0 : Buffers) (f : Frame)
    (k : String) (v : Landmark) (n : ℕ)
    (hnodup : (f.map Prod.fst).Nodup) (hmem : (k, v) ∈ f)
    (hx : v.x.isSome) (hy : v.y.isSome) (hz : v.z.isSome)
    (hvis : v.visibility.isSome)
    (hn1 : 1 ≤ n) (hnW : W ≤ n) :
    (smoothNthOutput W bufs0 f n).lookup k = some v := by
  rw [smoothNthOutput]
  apply smooth_out_const W _ f k v hnodup hmem hx hy hz hvis
  rw [pushB_smoothCalls W bufs0 f k v hnodup hmem hx hy n hn1]
  exact drop_push_replicate W n (bufs0 k) v hnW

/-- Claim C8, witness: window 2, a fresh instance, a one-key frame, second
call. -/
theorem C8_witness :
    (smoothNthOutput 2 Buffers.empty
        [("p", ⟨some 1, some 2, some 3, some 1⟩)] 2).lookup "p" =
      some ⟨some 1, some 2, some 3, some 1⟩ :=
  C8_smooth_constant_converges 2 Buffers.empty _ "p" _ 2 (by simp) (by simp)
    rfl rfl rfl rfl (by norm_num) (by norm_num)

end LandmarkPreprocessor

/-- A deque push never exceeds the configured bound. -/
theorem pushB_length_le_self {α : Type} (m : ℕ) (q : List α) (v : α) :
    (pushB m q v).length ≤ m := by
  simp only [pushB, List.length_drop, List.length_append]
  simp
  omega

/-- `smooth_landmarks` keeps every smoothing buffer within the window. -/
theorem smooth_bufs_bound (W : ℕ) (bufs : LandmarkPreprocessor.Buffers)
    (f : Frame) (hb : ∀ k, (bufs k).length ≤ W) :
    ∀ k, (((LandmarkPreprocessor.smooth_landmarks W bufs f).2) k).length ≤ W := by
  induction f generalizing bufs with
  | nil => exact hb
  | cons a t ih =>
    obtain ⟨k1, v1⟩ := a
    by_cases hv1 : (v1.x.isSome && v1.y.isSome) = true
    · simp only [LandmarkPreprocessor.smooth_landmarks, if_pos hv1]
      apply ih
      intro k2
      by_cases hk : k2 = k1
      · simp [hk, pushB_length_le_self]
      · simp [hk, hb k2]
    · simp only [LandmarkPreprocessor.smooth_landmarks, if_neg hv1]
      exact ih _ hb

open GestureRecognizer LandmarkPreprocessor in
/-- `recognize` keeps both wrist-history deques within the history size. -/
theorem recognize_state_bound (H : ℕ) (st : GestureRecognizer.RecState)
    (f : Frame) (hl : st.left.length ≤ H) (hr : st.right.length ≤ H) :
    ((GestureRecognizer.recognize H st f).2).left.length ≤ H ∧
    ((GestureRecognizer.recognize H st f).2).right.length ≤ H := by
  simp only [GestureRecognizer.recognize]
  set kp := extract_key_points (1/2) f with hkp
  by_cases h1 : f = []
  · rw [if_pos h1]
    exact ⟨hl, hr⟩
  rw [if_neg h1]
  by_cases h2 : ¬ visGate kp = true
  · rw [if_pos h2]
    exact ⟨hl, hr⟩
  rw [if_neg h2]
  by_cases h3 : leftUp kp ∧ rightUp kp
  · rw [if_pos h3]
    exact ⟨hl, hr⟩
  rw [if_neg h3]
  by_cases h4 : rightUp kp
  · rw [if_pos h4]
    exact ⟨hl, hr⟩
  rw [if_neg h4]
  by_cases h5 : leftUp kp
  · rw [if_pos h5]
    exact ⟨hl, hr⟩
  rw [if_neg h5]
  by_cases h6 : clapCond kp
  · rw [if_pos h6]
    exact ⟨hl, hr⟩
  rw [if_neg h6]
  by_cases h7 : pointLeftCond kp
  · rw [if_pos h7]
    exact ⟨hl, hr⟩
  rw [if_neg h7]
  by_cases h8 : pointRightCond kp
  · rw [if_pos h8]
    exact ⟨hl, hr⟩
  rw [if_neg h8]
  by_cases h9 : handsCloseCond kp
  · rw [if_pos h9]
    exact ⟨hl, hr⟩
  rw [if_neg h9]
  set st1 := if is_visible kp.right_wrist (1/2) = true then
      { st with right := pushB H st.right (ox kp.right_wrist) }
    else st with hst1
  have hb1 : st1.left.length ≤ H ∧ st1.right.length ≤ H := by
    rw [hst1]
    by_cases hv : is_visible kp.right_wrist (1/2) = true
    · rw [if_pos hv]
      exact ⟨hl, pushB_length_le_self _ _ _⟩
    · rw [if_neg hv]
      exact ⟨hl, hr⟩
  by_cases h10 : is_visible kp.right_wrist (1/2) = true ∧
      st1.right.length = H ∧ rightUp kp ∧ npstd st1.right > 5/100
  · rw [if_pos h10]
    exact hb1
  rw [if_neg h10]
  set st2 := if is_visible kp.left_wrist (1/2) = true then
      { st1 with left := pushB H st1.left (ox kp.left_wrist) }
    else st1 with hst2
  have hb2 : st2.left.length ≤ H ∧ st2.right.length ≤ H := by
    rw [hst2]
    by_cases hv : is_visible kp.left_wrist (1/2) = true
    · rw [if_pos hv]
      exact ⟨pushB_length_le_self _ _ _, hb1.2⟩
    · rw [if_neg hv]
      exact hb1
  by_cases h11 : is_visible kp.left_wrist (1/2) = true ∧
      st2.left.length = H ∧ leftUp kp ∧ npstd st2.left > 5/100
  · rw [if_pos h11]
    exact hb2
  rw [if_neg h11]
  by_cases h12 : is_visible kp.right_wrist (1/2) = true ∧
      st2.right.length ≥ 10 ∧ st2.right.length ≥ 10 ∧
      truthyO kp.right_wrist = true ∧
      npstd (st2.right.drop (st2.right.length - 10)) > 8/100 ∧ rightUp kp
  · rw [if_pos h12]
    exact hb2
  rw [if_neg h12]
  exact hb2

/-- Claim C9: over every sequence of session operations (smoothing calls,
recognition calls, history resets) starting from a fresh session, every
per-point smoothing buffer holds at most `W` entries and each wrist
motion-history buffer holds at most `H` entries after every operation (the
deque evicts the oldest entry on overflow). -/
theorem C9_buffers_bounded (W H : ℕ) (ops : List SessionOp) :
    (∀ k, (((applyOps W H initSession ops).bufs) k).length ≤ W) ∧
    ((applyOps W H initSession ops).recSt).left.length ≤ H ∧
    ((applyOps W H initSession ops).recSt).right.length ≤ H := by
  suffices h : ∀ s : SessionState, (∀ k, (s.bufs k).length ≤ W) →
      s.recSt.left.length ≤ H → s.recSt.right.length ≤ H →
      (∀ k, (((applyOps W H s ops).bufs) k).length ≤ W) ∧
      ((applyOps W H s ops).recSt).left.length ≤ H ∧
      ((applyOps W H s ops).recSt).right.length ≤ H by
    exact h initSession
      (fun k => by simp [initSession, LandmarkPreprocessor.Buffers.empty])
      (by simp [initSession]) (by simp [initSession])
  induction ops with
  | nil =>
    intro s h1 h2 h3
    exact ⟨h1, h2, h3⟩
  | cons op t ih =>
    intro s h1 h2 h3
    rw [show applyOps W H s (op :: t) = applyOps W H (applyOp W H s op) t
      from rfl]
    apply ih
    · cases op with
      | smoothOp f => exact smooth_bufs_bound W s.bufs f h1
      | recognizeOp f => exact h1
      | resetOp => exact h1
    · cases op with
      | smoothOp f => exact h2
      | recognizeOp f => exact (recognize_state_bound H s.recSt f h2 h3).1
      | resetOp => simp [applyOp]
    · cases op with
      | smoothOp f => exact h3
      | recognizeOp f => exact (recognize_state_bound H s.recSt f h2 h3).2
      | resetOp => simp [applyOp]
